import Mathlib

/-!
Verification development for the zhsc-compiler repository (a Chinese-keyword
to Solidity source-to-source translator).

The embedding covers:
* the AST node classes of `src/ast_nodes.py` (structures with the same field
  defaults as the Python constructors);
* the compiler driver of `src/compiler.py` (`ChineseSolidityCompiler.compile`,
  `compile_file`, `compile_code`, the accessor methods and the error classes),
  modelled as explicit state passing over a `CompilerState` record;
* the three pipeline stages (`lexer/chinese_lexer.py`, `parser/chinese_parser.py`,
  `codegen/solidity_generator.py`) are imported by `src/compiler.py` but their
  source files are not part of the repository snapshot; they are modelled
  abstractly as a `Pipeline` record of pure stage functions, and the Solidity
  generator's fixed output preamble is additionally modelled from the spec.
-/

namespace Zhsc

/-! ## AST node model, from `src/ast_nodes.py` -/

/-- Visibility modifiers (`class Visibility`, src/ast_nodes.py). -/
inductive Visibility where
  | public
  | «private»
  | internal
  | external
deriving DecidableEq, Repr

/-- Mutability modifiers (`class Mutability`, src/ast_nodes.py). -/
inductive Mutability where
  | pure
  | view
  | payable
  | none
deriving DecidableEq, Repr

/-- Expression nodes (`Assignment`, `BinaryExpression`, `UnaryExpression`,
`CallExpression`, `MemberExpression`, `IndexExpression`, `Identifier`,
`Literal` in src/ast_nodes.py).  Each constructor carries the fields of the
corresponding Python class; `prefixFlag` models the Python field named
`prefix` of `UnaryExpression`, and literal values are carried as strings. -/
inductive Expression where
  | assignment (left : Expression) (operator : String) (right : Expression)
      (line column : Nat)
  | binaryExpression (left : Expression) (operator : String) (right : Expression)
      (line column : Nat)
  | unaryExpression (operator : String) (operand : Expression) (prefixFlag : Bool)
      (line column : Nat)
  | callExpression (callee : Expression) (arguments : List Expression)
      (line column : Nat)
  | memberExpression (object : Expression) (property : String)
      (line column : Nat)
  | indexExpression (object : Expression) (index : Expression)
      (line column : Nat)
  | identifier (name : String) (line column : Nat)
  | literal (value : String) (literal_type : String) (line column : Nat)
deriving Repr

mutual
/-- `class Block` of src/ast_nodes.py: an ordered list of statements. -/
inductive Block where
  | mk (statements : List Statement) (line column : Nat)
deriving Repr

/-- Statement nodes (`ReturnStatement`, `IfStatement`, `ForStatement`,
`WhileStatement`, `ExpressionStatement`, `VariableDeclaration` in
src/ast_nodes.py).  The `else` slot of an `IfStatement` may hold either a
block or a nested `IfStatement`, so it is modelled as an optional statement
wrapping either form. -/
inductive Statement where
  | returnStatement (value : Option Expression) (line column : Nat)
  | ifStatement (condition : Option Expression) (then_block : Option Block)
      (else_block : Option Statement) (line column : Nat)
  | elseBlock (b : Block)
  | forStatement (init : Option Statement) (condition : Option Expression)
      (update : Option Expression) (body : Option Block) (line column : Nat)
  | whileStatement (condition : Option Expression) (body : Option Block)
      (line column : Nat)
  | expressionStatement (expression : Option Expression) (line column : Nat)
  | variableDeclaration (name : String) (var_type : String)
      (initial_value : Option Expression) (line column : Nat)
deriving Repr
end

/-- `class Parameter` of src/ast_nodes.py. -/
structure Parameter where
  name : String := ""
  param_type : String := ""
  line : Nat := 0
  column : Nat := 0
deriving Repr

/-- `class Event` of src/ast_nodes.py. -/
structure Event where
  name : String := ""
  parameters : List Parameter := []
  line : Nat := 0
  column : Nat := 0
deriving Repr

/-- `class Constructor` of src/ast_nodes.py. -/
structure Constructor where
  parameters : List Parameter := []
  body : Option Block := none
  line : Nat := 0
  column : Nat := 0
deriving Repr

/-- `class StateVariable` of src/ast_nodes.py.  The Python constructor
defaults `visibility` to `Visibility.PRIVATE`. -/
structure StateVariable where
  name : String := ""
  var_type : String := ""
  visibility : Visibility := Visibility.«private»
  initial_value : Option Expression := none
  line : Nat := 0
  column : Nat := 0
deriving Repr

/-- `class Function` of src/ast_nodes.py.  The Python constructor defaults
`visibility` to `Visibility.PUBLIC` and `mutability` to `Mutability.NONE`. -/
structure Function where
  name : String := ""
  parameters : List Parameter := []
  return_type : Option String := none
  visibility : Visibility := Visibility.public
  mutability : Mutability := Mutability.none
  body : Option Block := none
  line : Nat := 0
  column : Nat := 0
deriving Repr

/-- `class Contract` of src/ast_nodes.py: the constructor is a single optional
field, while state variables, functions and events are ordered lists. -/
structure Contract where
  name : String := ""
  state_variables : List StateVariable := []
  functions : List Function := []
  events : List Event := []
  constructor : Option Constructor := none
  line : Nat := 0
  column : Nat := 0
deriving Repr

/-- `class Program` of src/ast_nodes.py: the root node. -/
structure Program where
  contracts : List Contract := []
  line : Nat := 0
  column : Nat := 0
deriving Repr

/-- The number of constructors held by a `Contract` value: its `constructor`
field is a single optional slot. -/
def constructorCount (c : Contract) : Nat :=
  match c.constructor with
  | Option.none => 0
  | Option.some _ => 1

/-! ## Tokens and the pipeline stages

Modelled from the spec: the lexer, parser and code generator modules
(`lexer/chinese_lexer.py`, `parser/chinese_parser.py`,
`codegen/solidity_generator.py`) are imported by `src/compiler.py` but are not
part of the repository snapshot.  A token carries kind, lexeme, line and
column (spec §3); the stages are pure functions that either return their
result or fail with an exception message (spec §2: "each stage is pure with
respect to its inputs"). -/

/-- Modelled from the spec: a token of §3, "kind, lexeme, line, column". -/
structure Token where
  kind : String
  lexeme : String
  line : Nat
  column : Nat
deriving DecidableEq, Repr

/-- Modelled from the spec: the three stage functions imported by
`src/compiler.py` (`tokenize`, `parse`, `generate_solidity`), each a pure
function returning its result or an exception message. -/
structure Pipeline where
  tokenize : String → Except String (List Token)
  parse : List Token → Except String Program
  generate_solidity : Program → Except String String

/-! ## Compiler driver, from `src/compiler.py` -/

/-- The exception classes of src/compiler.py: `CompilerError` is the base
class, and `LexerError`, `ParserError`, `CodeGenError` are its three
subclasses, one per pipeline stage. -/
inductive CompileError where
  | compilerError (msg : String)
  | lexerError (msg : String)
  | parserError (msg : String)
  | codeGenError (msg : String)
deriving DecidableEq, Repr

/-- The message carried by a raised compiler error. -/
def CompileError.message : CompileError → String
  | .compilerError m => m
  | .lexerError m => m
  | .parserError m => m
  | .codeGenError m => m

/-- The mutable fields of a `ChineseSolidityCompiler` instance, as set by
`__init__` (src/compiler.py lines 38–49). -/
structure CompilerState where
  verbose : Bool := false
  source_code : String := ""
  tokens : List Token := []
  ast : Option Program := none
  solidity_code : String := ""
deriving Repr

/-- `ChineseSolidityCompiler.__init__(verbose)`: a freshly constructed
compiler object. -/
def initCompiler (verbose : Bool) : CompilerState :=
  { verbose := verbose }

/-- `ChineseSolidityCompiler.compile` (src/compiler.py lines 93–129), with the
instance's mutable state passed explicitly.  It stores the source, then runs
tokenization, parsing and code generation in order, each wrapped so that a
failure re-raises as the stage's error class with the stage's Chinese
description prefixed to the underlying exception message; fields are assigned
only when the producing stage succeeded. -/
def compileM (P : Pipeline) (source_code : String) (st : CompilerState) :
    Except CompileError String × CompilerState :=
  let st0 := { st with source_code := source_code }
  match P.tokenize source_code with
  | .error e => (.error (.lexerError ("词法分析失败: " ++ e)), st0)
  | .ok toks =>
    let st1 := { st0 with tokens := toks }
    match P.parse toks with
    | .error e => (.error (.parserError ("语法分析失败: " ++ e)), st1)
    | .ok a =>
      let st2 := { st1 with ast := some a }
      match P.generate_solidity a with
      | .error e => (.error (.codeGenError ("代码生成失败: " ++ e)), st2)
      | .ok code => (.ok code, { st2 with solidity_code := code })

/-- `ChineseSolidityCompiler.get_tokens` (src/compiler.py lines 131–133). -/
def get_tokens (st : CompilerState) : List Token :=
  st.tokens

/-- `ChineseSolidityCompiler.get_ast` (src/compiler.py lines 135–137). -/
def get_ast (st : CompilerState) : Option Program :=
  st.ast

/-- `ChineseSolidityCompiler.get_solidity_code` (src/compiler.py lines
139–141). -/
def get_solidity_code (st : CompilerState) : String :=
  st.solidity_code

/-- `compile_code` (src/compiler.py lines 160–172): constructs a fresh
compiler instance and compiles on it. -/
def compile_code (P : Pipeline) (source_code : String) (verbose : Bool) :
    Except CompileError String :=
  (compileM P source_code (initCompiler verbose)).1

/-- A filesystem snapshot: path → file contents, `none` when the path does
not exist. -/
def FS : Type := String → Option String

/-- `ChineseSolidityCompiler.compile_file` (src/compiler.py lines 56–91): read
the input file — a missing file raises the base `CompilerError` naming the
path before any pipeline stage runs — then compile, then write the output
file when a path was given.  Returns the result together with the final
compiler state and filesystem. -/
def compile_file (P : Pipeline) (fs : FS) (input_file : String)
    (output_file : Option String) (st : CompilerState) :
    Except CompileError String × CompilerState × FS :=
  match fs input_file with
  | Option.none => (.error (.compilerError ("文件不存在: " ++ input_file)), st, fs)
  | Option.some content =>
    let st1 := { st with source_code := content }
    match compileM P content st1 with
    | (.error e, st2) => (.error e, st2, fs)
    | (.ok code, st2) =>
      match output_file with
      | Option.none => (.ok code, st2, fs)
      | Option.some o => (.ok code, st2, fun p => if p = o then some code else fs p)

/-! ## Solidity generator model

Modelled from the spec: `codegen/solidity_generator.py` (`generate_solidity`)
is imported by `src/compiler.py` but is not part of the repository snapshot.
Per spec §4.3 and §6 the emitter produces a single string beginning with the
fixed preamble (`// SPDX-License-Identifier: MIT`, `pragma solidity ^0.8.0;`,
a blank line), followed by each contract emitted in source order; within a
contract the members are emitted state variables first, then events, then the
constructor, then the functions.  Expression rendering follows the builtin
identifier rewrite table of §4.3/§6; the precedence-driven parenthesisation
of §4.3 is not modelled here (no claim depends on it). -/

/-- Modelled from the spec: the builtin identifier rewrite table of §4.3/§6. -/
def rewriteBuiltin (name : String) : String :=
  if name = "消息发送者" then "msg.sender"
  else if name = "消息值" then "msg.value"
  else if name = "区块时间戳" then "block.timestamp"
  else if name = "区块号" then "block.number"
  else if name = "交易发送者" then "tx.origin"
  else if name = "真" then "true"
  else if name = "假" then "false"
  else name

mutual
/-- Modelled from the spec: render one expression (§4.3). -/
def emitExpression : Expression → String
  | .assignment l op r _ _ => emitExpression l ++ " " ++ op ++ " " ++ emitExpression r
  | .binaryExpression l op r _ _ =>
      emitExpression l ++ " " ++ op ++ " " ++ emitExpression r
  | .unaryExpression op operand pf _ _ =>
      if pf then op ++ emitExpression operand else emitExpression operand ++ op
  | .callExpression callee args _ _ =>
      emitExpression callee ++ "(" ++ String.intercalate ", " (emitExpressionList args) ++ ")"
  | .memberExpression obj prop _ _ => emitExpression obj ++ "." ++ prop
  | .indexExpression obj idx _ _ =>
      emitExpression obj ++ "[" ++ emitExpression idx ++ "]"
  | .identifier name _ _ => rewriteBuiltin name
  | .literal v lt _ _ => if lt = "string" then "\"" ++ v ++ "\"" else v

/-- Modelled from the spec: render a comma-separated argument list. -/
def emitExpressionList : List Expression → List String
  | [] => []
  | e :: es => emitExpression e :: emitExpressionList es
end

/-- Indentation of spec §4.3: four spaces per level. -/
def indent (level : Nat) : String :=
  String.join (List.replicate level "    ")

mutual
/-- Modelled from the spec: render one statement at an indentation level. -/
def emitStatement (level : Nat) : Statement → String
  | .returnStatement v _ _ =>
      indent level ++ "return" ++
        (match v with | Option.none => "" | Option.some e => " " ++ emitExpression e) ++ ";\n"
  | .ifStatement cond thenB elseB _ _ =>
      indent level ++ "if (" ++
        (match cond with | Option.none => "" | Option.some e => emitExpression e) ++ ") " ++
        (match thenB with | Option.none => "\x7b\n" ++ indent level ++ "\x7d"
                          | Option.some b => emitBlock level b) ++
        (match elseB with
         | Option.none => ""
         | Option.some s => " else " ++ emitStatement level s) ++ "\n"
  | .elseBlock b => emitBlock level b
  | .forStatement _ cond update body _ _ =>
      indent level ++ "for (; " ++
        (match cond with | Option.none => "" | Option.some e => emitExpression e) ++ "; " ++
        (match update with | Option.none => "" | Option.some e => emitExpression e) ++ ") " ++
        (match body with | Option.none => "\x7b\n" ++ indent level ++ "\x7d"
                         | Option.some b => emitBlock level b) ++ "\n"
  | .whileStatement cond body _ _ =>
      indent level ++ "while (" ++
        (match cond with | Option.none => "" | Option.some e => emitExpression e) ++ ") " ++
        (match body with | Option.none => "\x7b\n" ++ indent level ++ "\x7d"
                         | Option.some b => emitBlock level b) ++ "\n"
  | .expressionStatement e _ _ =>
      indent level ++
        (match e with | Option.none => "" | Option.some e => emitExpression e) ++ ";\n"
  | .variableDeclaration name ty iv _ _ =>
      indent level ++ ty ++ " " ++ name ++
        (match iv with | Option.none => "" | Option.some e => " = " ++ emitExpression e) ++ ";\n"

/-- Modelled from the spec: render a block, `{` on the owning line, each
statement indented one level deeper, `}` on its own line. -/
def emitBlock (level : Nat) : Block → String
  | .mk stmts _ _ =>
      "\x7b\n" ++ String.join (emitStatementList (level + 1) stmts) ++ indent level ++ "\x7d"

/-- Modelled from the spec: render the statements of a block in order. -/
def emitStatementList (level : Nat) : List Statement → List String
  | [] => []
  | s :: rest => emitStatement level s :: emitStatementList level rest
end

/-- Modelled from the spec: render an ordered parameter list. -/
def emitParameters (ps : List Parameter) : String :=
  String.intercalate ", " (ps.map fun p => p.param_type ++ " " ++ p.name)

/-- Modelled from the spec: render a state variable declaration. -/
def emitStateVariable (v : StateVariable) : String :=
  indent 1 ++ v.var_type ++ " " ++
    (match v.visibility with
     | .public => "public"
     | .«private» => "private"
     | .internal => "internal"
     | .external => "external") ++ " " ++ v.name ++
    (match v.initial_value with
     | Option.none => ""
     | Option.some e => " = " ++ emitExpression e) ++ ";\n"

/-- Modelled from the spec: render an event declaration. -/
def emitEvent (ev : Event) : String :=
  indent 1 ++ "event " ++ ev.name ++ "(" ++ emitParameters ev.parameters ++ ");\n"

/-- Modelled from the spec: render the constructor. -/
def emitConstructor (c : Constructor) : String :=
  indent 1 ++ "constructor(" ++ emitParameters c.parameters ++ ") " ++
    (match c.body with
     | Option.none => "\x7b\n" ++ indent 1 ++ "\x7d"
     | Option.some b => emitBlock 1 b) ++ "\n"

/-- Modelled from the spec: render a function; visibility and mutability in
the fixed order of §4.3, mutability omitted when it is the default `none`. -/
def emitFunction (f : Function) : String :=
  indent 1 ++ "function " ++ f.name ++ "(" ++ emitParameters f.parameters ++ ") " ++
    (match f.visibility with
     | .public => "public"
     | .«private» => "private"
     | .internal => "internal"
     | .external => "external") ++
    (match f.mutability with
     | .pure => " pure"
     | .view => " view"
     | .payable => " payable"
     | .none => "") ++
    (match f.return_type with
     | Option.none => ""
     | Option.some t => " returns (" ++ t ++ ")") ++ " " ++
    (match f.body with
     | Option.none => "\x7b\n" ++ indent 1 ++ "\x7d"
     | Option.some b => emitBlock 1 b) ++ "\n"

/-- Modelled from the spec: render one contract, members ordered state
variables, events, constructor, functions (§4.3). -/
def emitContract (c : Contract) : String :=
  "contract " ++ c.name ++ " \x7b\n" ++
    String.join (c.state_variables.map emitStateVariable) ++
    String.join (c.events.map emitEvent) ++
    (match c.constructor with
     | Option.none => ""
     | Option.some ctor => emitConstructor ctor) ++
    String.join (c.functions.map emitFunction) ++
    "\x7d\n"

/-- The fixed output preamble of spec §6: the SPDX license line, the pragma
line, then a blank line. -/
def solidityPreamble : String :=
  "// SPDX-License-Identifier: MIT\npragma solidity ^0.8.0;\n\n"

/-- Modelled from the spec: `generate_solidity` of
`codegen/solidity_generator.py` — the fixed preamble followed by each
contract emitted in source order (§4.3, §6). -/
def generate_solidity (p : Program) : String :=
  solidityPreamble ++ String.join (p.contracts.map emitContract)

/-! ## Definitions used to state the claims -/

/-- The message shape the spec asserts for the top-level compile failure:
`"<kind> at <line>:<column>: <detail>"`. -/
def specMessageFormat (msg : String) : Prop :=
  ∃ (kind detail : String) (line column : Nat),
    msg = kind ++ " at " ++ toString line ++ ":" ++ toString column ++ ": " ++ detail

/-- The property that a failed compile call's error is tagged by the stage
that failed, with that stage's Chinese description prefixed to the underlying
exception message, exactly as `ChineseSolidityCompiler.compile` re-raises. -/
def taggedByStage (P : Pipeline) (src : String) (e : CompileError) : Prop :=
  (∃ m, P.tokenize src = .error m ∧ e = .lexerError ("词法分析失败: " ++ m)) ∨
  (∃ toks m, P.tokenize src = .ok toks ∧ P.parse toks = .error m ∧
      e = .parserError ("语法分析失败: " ++ m)) ∨
  (∃ toks a m, P.tokenize src = .ok toks ∧ P.parse toks = .ok a ∧
      P.generate_solidity a = .error m ∧ e = .codeGenError ("代码生成失败: " ++ m))

/-- The message shape the compile driver actually produces on failure: the
failing stage's Chinese description, a colon and space, then the underlying
exception's message. -/
def stagePrefixedMessage (e : CompileError) : Prop :=
  ∃ d, e = .lexerError ("词法分析失败: " ++ d) ∨
       e = .parserError ("语法分析失败: " ++ d) ∨
       e = .codeGenError ("代码生成失败: " ++ d)

/-- A concrete pipeline whose lexer always fails with message `boom`. -/
def failingLexPipeline : Pipeline where
  tokenize := fun _ => .error "boom"
  parse := fun _ => .error "unreachable"
  generate_solidity := fun _ => .error "unreachable"

/-- A concrete sample token. -/
def tokenA : Token :=
  { kind := "identifier", lexeme := "a", line := 1, column := 1 }

/-- A concrete pipeline whose lexer accepts exactly the source `"a"`
(producing `[tokenA]`) and fails on every other source. -/
def staleTokensPipeline : Pipeline where
  tokenize := fun s => if s = "a" then .ok [tokenA] else .error "bad"
  parse := fun _ => .ok {}
  generate_solidity := fun a => .ok (generate_solidity a)

/-- A concrete pipeline with trivial lexer and parser around the modelled
Solidity generator. -/
def modelPipeline : Pipeline where
  tokenize := fun _ => .ok []
  parse := fun _ => .ok {}
  generate_solidity := fun a => .ok (generate_solidity a)

/-- The empty filesystem: no path exists. -/
def emptyFS : FS := fun _ => none

/-! ## Helper lemmas -/

/-- Any message of the spec's `"<kind> at <line>:<column>: <detail>"` shape
contains the character `a` (from its literal `" at "` segment). -/
theorem mem_a_of_specMessageFormat {msg : String} (h : specMessageFormat msg) :
    'a' ∈ msg.data := by
  obtain ⟨kind, detail, l, c, hmsg⟩ := h
  subst hmsg
  simp only [String.data_append, List.mem_append]
  have : 'a' ∈ (" at " : String).data := by decide
  tauto

/-! ## Claim theorems -/

/-- Claim C1: for every source string, `compile` runs tokenization, then
parsing of the token sequence tokenization produced, then Solidity generation
on the AST parsing produced, and returns the generated string: the call
succeeds with output `out` exactly when the three stages succeed strictly in
that order, each consuming the previous stage's output, with the generator
producing `out`. -/
theorem compile_runs_stages_in_order (P : Pipeline) (src : String)
    (st : CompilerState) (out : String) :
    (compileM P src st).1 = .ok out ↔
      ∃ toks a, P.tokenize src = .ok toks ∧ P.parse toks = .ok a ∧
        P.generate_solidity a = .ok out := by
  unfold compileM
  cases h1 : P.tokenize src with
  | error e => simp [h1]
  | ok toks =>
    cases h2 : P.parse toks with
    | error e => simp [h1, h2]
    | ok a =>
      cases h3 : P.generate_solidity a with
      | error e => simp [h1, h2, h3]
      | ok code => simp [h1, h2, h3]

/-- Claim C4: a `Function` node constructed without an explicit modifier has
visibility `public` and mutability `none`, and a `StateVariable` node
constructed without an explicit visibility has visibility `private`, exactly
as the default arguments of the Python constructors prescribe. -/
theorem function_and_state_variable_defaults
    (n : String) (ps : List Parameter) (rt : Option String) (b : Option Block)
    (l c : Nat) (vn vt : String) (iv : Option Expression) :
    ({ name := n, parameters := ps, return_type := rt, body := b,
       line := l, column := c } : Function).visibility = Visibility.public ∧
    ({ name := n, parameters := ps, return_type := rt, body := b,
       line := l, column := c } : Function).mutability = Mutability.none ∧
    ({ name := vn, var_type := vt, initial_value := iv,
       line := l, column := c } : StateVariable).visibility = Visibility.«private» :=
  ⟨rfl, rfl, rfl⟩

/-- Claim C5: the constructor of a `Contract` is a single optional slot, so
every `Contract` value holds at most one constructor, and a `Contract` with
no constructor is representable. -/
theorem contract_at_most_one_constructor :
    (∀ c : Contract, constructorCount c ≤ 1) ∧
    (∃ c : Contract, c.constructor = none ∧ constructorCount c = 0) := by
  constructor
  · intro c
    cases h : c.constructor <;> simp [constructorCount, h]
  · exact ⟨{}, rfl, rfl⟩

/-- Claim C6: `compile_code` constructs a fresh compiler for each invocation
and the pipeline stages are pure, so its result never depends on any earlier
call's state: the outcome of `compile` is the same from every starting
compiler state, hence two invocations of `compile_code` on the same source
produce identical output. -/
theorem compile_code_state_independent (P : Pipeline) (src : String)
    (v : Bool) (st : CompilerState) :
    compile_code P src v = (compileM P src st).1 := by
  unfold compile_code compileM
  cases h1 : P.tokenize src with
  | error e => simp
  | ok toks =>
    cases h2 : P.parse toks with
    | error e => simp [h2]
    | ok a =>
      cases h3 : P.generate_solidity a with
      | error e => simp [h2, h3]
      | ok code => simp [h2, h3]

/-- Claim C10: on a freshly constructed compiler, before any compile call,
`get_tokens` returns the empty list, `get_ast` returns `None`, and
`get_solidity_code` returns the empty string, exactly as `__init__`
initialises the fields. -/
theorem fresh_compiler_accessor_defaults (v : Bool) :
    get_tokens (initCompiler v) = [] ∧
    get_ast (initCompiler v) = none ∧
    get_solidity_code (initCompiler v) = "" :=
  ⟨rfl, rfl, rfl⟩

/-- Claim C2: whenever `compile` fails it raises exactly one error, tagged by
the failing stage — a tokenization failure raises the lexical category, a
parse failure the parse category, a generation failure the code-generation
category — and the three categories are disjoint. -/
theorem compile_error_tagged_by_stage (P : Pipeline) (src : String)
    (st : CompilerState) (e : CompileError)
    (h : (compileM P src st).1 = .error e) :
    taggedByStage P src e ∧
    (∀ m m', CompileError.lexerError m ≠ CompileError.parserError m') ∧
    (∀ m m', CompileError.lexerError m ≠ CompileError.codeGenError m') ∧
    (∀ m m', CompileError.parserError m ≠ CompileError.codeGenError m') := by
  refine ⟨?_, fun m m' hc => CompileError.noConfusion hc,
    fun m m' hc => CompileError.noConfusion hc,
    fun m m' hc => CompileError.noConfusion hc⟩
  unfold taggedByStage
  unfold compileM at h
  cases h1 : P.tokenize src with
  | error m =>
    simp only [h1] at h
    simp at h
    exact Or.inl ⟨m, rfl, h.symm⟩
  | ok toks =>
    cases h2 : P.parse toks with
    | error m =>
      simp only [h1, h2] at h
      simp at h
      exact Or.inr (Or.inl ⟨toks, m, rfl, h2, h.symm⟩)
    | ok a =>
      cases h3 : P.generate_solidity a with
      | error m =>
        simp only [h1, h2, h3] at h
        simp at h
        exact Or.inr (Or.inr ⟨toks, a, m, rfl, h2, h3, h.symm⟩)
      | ok code =>
        simp [h1, h2, h3] at h

/-- Claim C2 (witness): on a pipeline whose lexer fails with message `boom`,
`compile` fails and its error is tagged by the lexical stage. -/
theorem compile_error_tagged_by_stage_witness :
    (compileM failingLexPipeline "x" (initCompiler false)).1
      = .error (.lexerError ("词法分析失败: " ++ "boom")) ∧
    taggedByStage failingLexPipeline "x"
      (.lexerError ("词法分析失败: " ++ "boom")) :=
  ⟨rfl, (compile_error_tagged_by_stage failingLexPipeline "x" (initCompiler false)
      (.lexerError ("词法分析失败: " ++ "boom")) rfl).1⟩

/-- Claim C3 (counterexample): on a pipeline whose lexer fails with message
`boom`, the top-level `compile` produces the user-facing message
`词法分析失败: boom`, which does not have the spec's claimed form
`"<kind> at <line>:<column>: <detail>"` — the driver prefixes the stage
description and never inserts a line or column. -/
theorem compile_message_format_counterexample :
    (compileM failingLexPipeline "x" (initCompiler false)).1
      = .error (.lexerError "词法分析失败: boom") ∧
    ¬ specMessageFormat "词法分析失败: boom" := by
  refine ⟨rfl, fun h => ?_⟩
  have ha := mem_a_of_specMessageFormat h
  revert ha
  decide

/-- Claim C3 (amended): for every source on which the top-level `compile`
fails, the user-facing message has the form `"<stage description>: <detail>"`
— the failing stage's Chinese description (`词法分析失败`, `语法分析失败` or
`代码生成失败`), a colon and space, then the underlying exception's message;
`compile` itself attaches no line or column. -/
theorem compile_message_stage_prefixed (P : Pipeline) (src : String)
    (st : CompilerState) (e : CompileError)
    (h : (compileM P src st).1 = .error e) :
    stagePrefixedMessage e := by
  unfold stagePrefixedMessage
  unfold compileM at h
  cases h1 : P.tokenize src with
  | error m =>
    simp only [h1] at h
    simp at h
    exact ⟨m, Or.inl h.symm⟩
  | ok toks =>
    cases h2 : P.parse toks with
    | error m =>
      simp only [h1, h2] at h
      simp at h
      exact ⟨m, Or.inr (Or.inl h.symm)⟩
    | ok a =>
      cases h3 : P.generate_solidity a with
      | error m =>
        simp only [h1, h2, h3] at h
        simp at h
        exact ⟨m, Or.inr (Or.inr h.symm)⟩
      | ok code =>
        simp [h1, h2, h3] at h

/-- Claim C3 (amended, witness): the failing-lexer pipeline's message is the
stage description followed by the underlying detail. -/
theorem compile_message_stage_prefixed_witness :
    stagePrefixedMessage (.lexerError ("词法分析失败: " ++ "boom")) :=
  compile_message_stage_prefixed failingLexPipeline "x" (initCompiler false)
    (.lexerError ("词法分析失败: " ++ "boom")) rfl

/-- Claim C7 (counterexample): the diagnostic accessors take no source
argument and merely read stored state: after successfully compiling `"a"`
and then requesting compilation of `"b"` (whose tokenization fails),
`get_tokens` still returns the token list of `"a"` even though the lexer
produced no tokens at all for `"b"`. -/
theorem get_tokens_stale_counterexample :
    get_tokens (compileM staleTokensPipeline "b"
        (compileM staleTokensPipeline "a" (initCompiler false)).2).2 = [tokenA] ∧
    staleTokensPipeline.tokenize "b" = .error "bad" ∧
    ([tokenA] : List Token) ≠ [] := by
  refine ⟨rfl, rfl, by decide⟩

/-- Claim C7 (amended): the compiler object's accessors `get_tokens` and
`get_ast` take no source argument; they return the intermediate structures
stored by the most recent `compile` call that reached the corresponding
stage — the token list once tokenization succeeded, the AST once parsing
succeeded — and keep their previous contents when the stage failed. -/
theorem accessors_return_last_compile_results (P : Pipeline) (src : String)
    (st : CompilerState) :
    (∀ toks, P.tokenize src = .ok toks →
        get_tokens (compileM P src st).2 = toks) ∧
    (∀ m, P.tokenize src = .error m →
        get_tokens (compileM P src st).2 = get_tokens st) ∧
    (∀ toks a, P.tokenize src = .ok toks → P.parse toks = .ok a →
        get_ast (compileM P src st).2 = some a) ∧
    (∀ toks m, P.tokenize src = .ok toks → P.parse toks = .error m →
        get_ast (compileM P src st).2 = get_ast st) := by
  refine ⟨?_, ?_, ?_, ?_⟩
  · intro toks h1
    unfold compileM
    simp only [h1]
    cases h2 : P.parse toks with
    | error m => simp [h2, get_tokens]
    | ok a =>
      cases h3 : P.generate_solidity a with
      | error m => simp [h2, h3, get_tokens]
      | ok code => simp [h2, h3, get_tokens]
  · intro m h1
    unfold compileM
    simp [h1, get_tokens]
  · intro toks a h1 h2
    unfold compileM
    simp only [h1]
    cases h3 : P.generate_solidity a with
    | error m => simp [h2, h3, get_ast]
    | ok code => simp [h2, h3, get_ast]
  · intro toks m h1 h2
    unfold compileM
    simp [h1, h2, get_ast]

/-- Claim C7 (amended, witness): on the concrete pipeline that lexes exactly
`"a"`, the accessors return the stored intermediates: the tokens and AST of
the last successful stages, and the stale tokens after a failed lex. -/
theorem accessors_return_last_compile_results_witness :
    get_tokens (compileM staleTokensPipeline "a" (initCompiler false)).2 = [tokenA] ∧
    get_ast (compileM staleTokensPipeline "a" (initCompiler false)).2 = some {} ∧
    get_tokens (compileM staleTokensPipeline "b" (initCompiler false)).2
      = get_tokens (initCompiler false) :=
  ⟨(accessors_return_last_compile_results staleTokensPipeline "a"
      (initCompiler false)).1 [tokenA] rfl,
   (accessors_return_last_compile_results staleTokensPipeline "a"
      (initCompiler false)).2.2.1 [tokenA] {} rfl rfl,
   (accessors_return_last_compile_results staleTokensPipeline "b"
      (initCompiler false)).2.1 "bad" rfl⟩

/-- Claim C8: every successfully emitted Solidity string begins with the
fixed preamble — the SPDX license line, the pragma line, then a blank line —
before any contract text: when the pipeline's generator is the modelled
emitter, any successful `compile` output decomposes as the preamble followed
by the rendered contracts. -/
theorem emitted_output_starts_with_preamble (P : Pipeline) (src : String)
    (st st' : CompilerState) (out : String)
    (hgen : ∀ a, P.generate_solidity a = .ok (generate_solidity a))
    (h : compileM P src st = (.ok out, st')) :
    ∃ rest, out = solidityPreamble ++ rest := by
  unfold compileM at h
  cases h1 : P.tokenize src with
  | error m => simp [h1] at h
  | ok toks =>
    cases h2 : P.parse toks with
    | error m => simp [h1, h2] at h
    | ok a =>
      have h3 := hgen a
      simp only [h1, h2, h3] at h
      simp at h
      exact ⟨String.join (a.contracts.map emitContract), by
        rw [← h.1]; rfl⟩

/-- Claim C8 (witness): the output compiled from the trivial pipeline around
the modelled emitter starts with the preamble. -/
theorem emitted_output_starts_with_preamble_witness :
    ∃ rest, generate_solidity ({} : Program) = solidityPreamble ++ rest :=
  emitted_output_starts_with_preamble modelPipeline "" (initCompiler false)
    _ (generate_solidity {}) (fun _ => rfl) rfl

/-- Claim C9: when the input path given to `compile_file` does not exist, it
raises the base `CompilerError` category — not the lexical, parse or
code-generation category — with a message naming the missing path, the
compiler state is untouched (no pipeline stage runs), and the filesystem is
unchanged (no output file is written). -/
theorem compile_file_missing_input (P : Pipeline) (fs : FS)
    (input_file : String) (output_file : Option String) (st : CompilerState)
    (h : fs input_file = none) :
    compile_file P fs input_file output_file st
      = (.error (.compilerError ("文件不存在: " ++ input_file)), st, fs) ∧
    (∀ m, (CompileError.compilerError ("文件不存在: " ++ input_file))
        ≠ .lexerError m) ∧
    (∀ m, (CompileError.compilerError ("文件不存在: " ++ input_file))
        ≠ .parserError m) ∧
    (∀ m, (CompileError.compilerError ("文件不存在: " ++ input_file))
        ≠ .codeGenError m) := by
  refine ⟨?_, fun m hc => CompileError.noConfusion hc,
    fun m hc => CompileError.noConfusion hc,
    fun m hc => CompileError.noConfusion hc⟩
  unfold compile_file
  simp [h]

/-- Claim C9 (witness): on the empty filesystem, `compile_file` fails with
the base category naming the missing path and leaves state and filesystem
unchanged. -/
theorem compile_file_missing_input_witness :
    compile_file modelPipeline emptyFS "token.zhs" none (initCompiler false)
      = (.error (.compilerError ("文件不存在: " ++ "token.zhs")),
         initCompiler false, emptyFS) :=
  (compile_file_missing_input modelPipeline emptyFS "token.zhs" none
    (initCompiler false) rfl).1

end Zhsc
